import Mathlib

/-!
Shallow embedding of the cursor module of the `mondodb` Rust SDK
(`src/sdks/rust/src/cursor.rs` and the error type of
`src/sdks/rust/src/error.rs`).

Modelling choices:
- Raw wire documents (`serde_json::Value`) are abstracted to a type
  parameter `Doc`; the typed record `T` to a parameter `α`; the
  deserializer `serde_json::from_value` to a parameter
  `deserialize : Doc → Except String α` (the `String` is the error
  message used to build `MongoError::Deserialization`).
- The `tokio::sync::Mutex` lock/unlock discipline is elided: each
  operation is modelled as one atomic transformation of the cursor
  state (sequential, single-caller semantics).
- The optional `rpc_client : Option<Arc<rpc_do::RpcClient>>` field is
  modelled by its presence: a `Bool` parameter `rpc_client` (it is only
  ever tested with `if let Some(..)` and called; the unused
  `fetch_more` field of `Cursor` is never read by the code and is
  omitted).
- The single external call `rpc_client.call_raw("mongo.getMore", ..)`
  is an oracle: its outcome is an explicit argument of type
  `FetchResult Doc`. A reply is modelled by the two fields the code
  reads from it: the optional `documents` array and the optional
  `cursorId` string. Every operation additionally reports how many
  fetch-more calls it issued (the `fetches` field of its output).
-/

set_option autoImplicit false


/-- Error enum of `src/sdks/rust/src/error.rs` (`MongoError`). Payload
strings model the `String` fields; `Rpc` models `rpc_do::RpcError`
(wrapped by `e.into()`) by its message; `Bson` likewise. -/
inductive MongoError where
  | Connection (msg : String)
  | Authentication (msg : String)
  | Write (code : Option Int) (message : String)
  | BulkWrite (n : Nat)
  | Command (code : Int) (message : String)
  | Query (msg : String)
  | InvalidArgument (msg : String)
  | Serialization (msg : String)
  | Deserialization (msg : String)
  | CursorExhausted
  | Timeout
  | ServerSelection (msg : String)
  | Network (msg : String)
  | Internal (msg : String)
  | Rpc (msg : String)
  | Bson (msg : String)
  deriving DecidableEq, Repr

/-- Internal cursor state (`CursorState`, cursor.rs lines 16-27).
`buffer` is the `VecDeque<JsonValue>` with its front at the list head;
`nspace` is the `namespace` field (a reserved word in Lean);
`batch_size` is the `usize` batch size hint. -/
structure CursorState (Doc : Type) where
  cursor_id : Option String
  exhausted : Bool
  buffer : List Doc
  nspace : String
  batch_size : Nat
  deriving DecidableEq, Repr

/-- A successful `mongo.getMore` reply, reduced to the two fields the
code reads: `value.get("documents").and_then(as_array)` and
`value.get("cursorId").and_then(as_str)`; `none` models an absent (or
wrongly typed) field. -/
structure FetchReply (Doc : Type) where
  documents : Option (List Doc)
  cursorId : Option String
  deriving DecidableEq, Repr

/-- Outcome of one `call_raw("mongo.getMore", ..)` invocation; the
error side is the `rpc_do::RpcError`, modelled by its message. -/
abbrev FetchResult (Doc : Type) := Except String (FetchReply Doc)

/-- Output of one cursor operation: its return value, the cursor state
it leaves behind, and the number of fetch-more calls it issued
(0 or 1 for the single-step operations; cumulative for `collect`). -/
structure StepOut (Doc : Type) (ρ : Type) where
  result : ρ
  state : CursorState Doc
  fetches : Nat
  deriving DecidableEq, Repr

/-- `CursorState::new` (cursor.rs lines 31-39). -/
def CursorState.new {Doc : Type} (nspace : String) (batch_size : Nat) : CursorState Doc :=
  { cursor_id := none, exhausted := false, buffer := [], nspace := nspace, batch_size := batch_size }

/-- `CursorState::with_data` (cursor.rs lines 42-50): `exhausted` is
initialised to `cursor_id.is_none()`, the buffer to the given data. -/
def CursorState.with_data {Doc : Type} (nspace : String) (data : List Doc)
    (cursor_id : Option String) : CursorState Doc :=
  { cursor_id := cursor_id, exhausted := cursor_id.isNone, buffer := data,
    nspace := nspace, batch_size := 100 }

/-- `Cursor::empty` (cursor.rs lines 90-103): empty buffer, no id,
exhausted from the start. -/
def Cursor.emptyState {Doc : Type} (nspace : String) : CursorState Doc :=
  { cursor_id := none, exhausted := true, buffer := [], nspace := nspace, batch_size := 100 }

/-- `Cursor::is_exhausted` (cursor.rs lines 112-115):
`state.exhausted && state.buffer.is_empty()`. -/
def Cursor.is_exhausted {Doc : Type} (s : CursorState Doc) : Bool :=
  s.exhausted && s.buffer.isEmpty

/-- `Cursor::cursor_id` (cursor.rs lines 118-121). -/
def Cursor.cursor_id {Doc : Type} (s : CursorState Doc) : Option String :=
  s.cursor_id

/-- `Cursor::close` (cursor.rs lines 124-130): unconditionally sets
`exhausted`, clears the buffer, clears the id, returns `Ok(())`. -/
def Cursor.close {Doc : Type} (s : CursorState Doc) :
    Except MongoError Unit × CursorState Doc :=
  (Except.ok (), { s with exhausted := true, buffer := [], cursor_id := none })

/-- `Cursor::advance` (cursor.rs lines 135-196). The two nested Rust
conditionals `if cursor_id.is_some() { if let Some(rpc_client) {..} }`
fall through to the same tail (lines 193-195) when either fails, hence
the single combined condition. On a successful fetch the reply is
merged exactly as lines 170-181 do: append the `documents` array (if
present) to the buffer, then either install the new `cursorId` or
clear it and set `exhausted`. -/
def Cursor.advance {Doc : Type} (rpc_client : Bool) (fetch : FetchResult Doc)
    (s : CursorState Doc) : StepOut Doc (Except MongoError Bool) :=
  if !s.buffer.isEmpty then ⟨Except.ok true, s, 0⟩
  else if s.exhausted then ⟨Except.ok false, s, 0⟩
  else if s.cursor_id.isSome && rpc_client then
    match fetch with
    | Except.error e => ⟨Except.error (MongoError.Rpc e), { s with exhausted := true }, 1⟩
    | Except.ok reply =>
        let s1 : CursorState Doc :=
          match reply.documents with
          | some docs => { s with buffer := s.buffer ++ docs }
          | none => s
        let s2 : CursorState Doc :=
          match reply.cursorId with
          | some new_cursor_id => { s1 with cursor_id := some new_cursor_id }
          | none => { s1 with cursor_id := none, exhausted := true }
        ⟨Except.ok (!s2.buffer.isEmpty), s2, 1⟩
  else ⟨Except.ok false, { s with exhausted := true }, 0⟩

/-- `Cursor::current` (cursor.rs lines 199-206): reads the buffer front
without removing it (`&self`: the state is returned unchanged); on an
empty buffer fails with `CursorExhausted` whatever `exhausted` holds. -/
def Cursor.current {Doc α : Type} (deserialize : Doc → Except String α)
    (s : CursorState Doc) : Except MongoError α × CursorState Doc :=
  match s.buffer with
  | doc :: _ =>
      (match deserialize doc with
       | Except.ok v => Except.ok v
       | Except.error e => Except.error (MongoError.Deserialization e), s)
  | [] => (Except.error MongoError.CursorExhausted, s)

/-- `Cursor::try_next` (cursor.rs lines 209-274): pop-and-decode if the
buffer is non-empty (the record is consumed even when decoding fails);
`Ok(None)` if exhausted; otherwise, with an id and an rpc client, one
fetch-more call whose reply is merged as lines 244-255 do, followed by
one pop-and-decode retry; every remaining path falls through to lines
271-273, which set `exhausted` and return `Ok(None)`. -/
def Cursor.try_next {Doc α : Type} (deserialize : Doc → Except String α)
    (rpc_client : Bool) (fetch : FetchResult Doc) (s : CursorState Doc) :
    StepOut Doc (Except MongoError (Option α)) :=
  match s.buffer with
  | doc :: rest =>
      match deserialize doc with
      | Except.ok v => ⟨Except.ok (some v), { s with buffer := rest }, 0⟩
      | Except.error e =>
          ⟨Except.error (MongoError.Deserialization e), { s with buffer := rest }, 0⟩
  | [] =>
      if s.exhausted then ⟨Except.ok none, s, 0⟩
      else if s.cursor_id.isSome && rpc_client then
        match fetch with
        | Except.error e => ⟨Except.error (MongoError.Rpc e), { s with exhausted := true }, 1⟩
        | Except.ok reply =>
            let s1 : CursorState Doc :=
              match reply.documents with
              | some docs => { s with buffer := s.buffer ++ docs }
              | none => s
            let s2 : CursorState Doc :=
              match reply.cursorId with
              | some new_cursor_id => { s1 with cursor_id := some new_cursor_id }
              | none => { s1 with cursor_id := none, exhausted := true }
            match s2.buffer with
            | doc :: rest =>
                match deserialize doc with
                | Except.ok v => ⟨Except.ok (some v), { s2 with buffer := rest }, 1⟩
                | Except.error e =>
                    ⟨Except.error (MongoError.Deserialization e), { s2 with buffer := rest }, 1⟩
            | [] => ⟨Except.ok none, { s2 with exhausted := true }, 1⟩
      else ⟨Except.ok none, { s with exhausted := true }, 0⟩

/-- Body of the future built by `Stream::poll_next` (cursor.rs lines
297-364), translated independently of `try_next`: same pop-decode /
exhausted / fetch-merge-retry / fall-through shape, but yielding
`Option (Except ..)` (`Some(Ok _)`, `Some(Err _)` or the terminating
`None`) instead of `Except .. (Option _)`. -/
def Cursor.poll_next {Doc α : Type} (deserialize : Doc → Except String α)
    (rpc_client : Bool) (fetch : FetchResult Doc) (s : CursorState Doc) :
    StepOut Doc (Option (Except MongoError α)) :=
  match s.buffer with
  | doc :: rest =>
      match deserialize doc with
      | Except.ok v => ⟨some (Except.ok v), { s with buffer := rest }, 0⟩
      | Except.error e =>
          ⟨some (Except.error (MongoError.Deserialization e)), { s with buffer := rest }, 0⟩
  | [] =>
      if s.exhausted then ⟨none, s, 0⟩
      else if s.cursor_id.isSome && rpc_client then
        match fetch with
        | Except.error e =>
            ⟨some (Except.error (MongoError.Rpc e)), { s with exhausted := true }, 1⟩
        | Except.ok reply =>
            let s1 : CursorState Doc :=
              match reply.documents with
              | some docs => { s with buffer := s.buffer ++ docs }
              | none => s
            let s2 : CursorState Doc :=
              match reply.cursorId with
              | some new_cursor_id => { s1 with cursor_id := some new_cursor_id }
              | none => { s1 with cursor_id := none, exhausted := true }
            match s2.buffer with
            | doc :: rest =>
                match deserialize doc with
                | Except.ok v => ⟨some (Except.ok v), { s2 with buffer := rest }, 1⟩
                | Except.error e =>
                    ⟨some (Except.error (MongoError.Deserialization e)), { s2 with buffer := rest }, 1⟩
            | [] => ⟨none, { s2 with exhausted := true }, 1⟩
      else ⟨none, { s with exhausted := true }, 0⟩

/-- `Cursor::collect` (cursor.rs lines 277-283): `while let Some(doc) =
self.try_next().await? { results.push(doc) }`. The loop is modelled
with explicit `fuel` bounding the number of iterations (`result =
none` models an iteration budget too small to finish, i.e. the run was
cut off, never an answer of the code). `oracle n` is the outcome of
the `n`-th fetch-more call of the cursor's lifetime and `calls` the
number already made; the returned `fetches` field is the final value
of that counter. -/
def Cursor.collect {Doc α : Type} (deserialize : Doc → Except String α)
    (rpc_client : Bool) (oracle : Nat → FetchResult Doc) :
    Nat → CursorState Doc → Nat → List α →
    StepOut Doc (Option (Except MongoError (List α)))
  | 0, s, calls, _ => ⟨none, s, calls⟩
  | fuel + 1, s, calls, acc =>
      let o := Cursor.try_next deserialize rpc_client (oracle calls) s
      match o.result with
      | Except.ok (some v) =>
          Cursor.collect deserialize rpc_client oracle fuel o.state (calls + o.fetches)
            (acc ++ [v])
      | Except.ok none => ⟨some (Except.ok acc), o.state, calls + o.fetches⟩
      | Except.error e => ⟨some (Except.error e), o.state, calls + o.fetches⟩

/-- One public consumption or lifecycle operation of the cursor, with
the oracle data the operation would consume (the outcome of its
fetch-more call, if it makes one). -/
inductive Op (Doc : Type) where
  | advanceOp (fetch : FetchResult Doc)
  | tryNextOp (fetch : FetchResult Doc)
  | pollNextOp (fetch : FetchResult Doc)
  | collectOp (fuel : Nat) (oracle : Nat → FetchResult Doc)
  | closeOp
  | currentOp

/-- State left behind by one operation, paired with the number of
fetch-more calls it issued. -/
def Op.step {Doc α : Type} (deserialize : Doc → Except String α) (rpc_client : Bool) :
    Op Doc → CursorState Doc → CursorState Doc × Nat
  | Op.advanceOp fetch, s =>
      let o := Cursor.advance rpc_client fetch s
      (o.state, o.fetches)
  | Op.tryNextOp fetch, s =>
      let o := Cursor.try_next deserialize rpc_client fetch s
      (o.state, o.fetches)
  | Op.pollNextOp fetch, s =>
      let o := Cursor.poll_next deserialize rpc_client fetch s
      (o.state, o.fetches)
  | Op.collectOp fuel oracle, s =>
      let o := Cursor.collect deserialize rpc_client oracle fuel s 0 []
      (o.state, o.fetches)
  | Op.closeOp, s => ((Cursor.close s).2, 0)
  | Op.currentOp, s => ((Cursor.current deserialize s).2, 0)

/-- Run a sequence of operations, returning the final state and the
total number of fetch-more calls issued. -/
def Op.run {Doc α : Type} (deserialize : Doc → Except String α) (rpc_client : Bool) :
    List (Op Doc) → CursorState Doc → CursorState Doc × Nat
  | [], s => (s, 0)
  | op :: ops, s =>
      let p := Op.step deserialize rpc_client op s
      let q := Op.run deserialize rpc_client ops p.1
      (q.1, p.2 + q.2)

/-- Correspondence between the value `try_next` returns and the item
the stream step yields: `Ok(Some r) ↔ Some(Ok r)`, `Err e ↔ Some(Err
e)`, `Ok(None) ↔ None`. -/
def resultToPoll {α : Type} : Except MongoError (Option α) → Option (Except MongoError α)
  | Except.ok (some v) => some (Except.ok v)
  | Except.ok none => none
  | Except.error e => some (Except.error e)

/-- Deserializer used by concrete witnesses: every `Nat` document
decodes to itself. -/
def decNat : Nat → Except String Nat := fun n => Except.ok n

/-- Deserializer used by concrete witnesses: even documents decode,
odd ones fail. -/
def decEven : Nat → Except String Nat :=
  fun n => if n % 2 = 0 then Except.ok n else Except.error "odd"

/-- Oracle used by concrete witnesses: every fetch-more call fails. -/
def orcFail : Nat → FetchResult Nat := fun _ => Except.error "unused"

/-! ## Helper lemmas shared by the claim theorems -/

/-- The `current` read leaves the state component untouched in every
branch. -/
theorem current_state_eq {Doc α : Type} (deserialize : Doc → Except String α)
    (s : CursorState Doc) : (Cursor.current deserialize s).2 = s := by
  cases h : s.buffer <;> simp [Cursor.current, h]

/-- `try_next` never clears the exhausted flag. -/
theorem try_next_exhausted_mono {Doc α : Type} (deserialize : Doc → Except String α)
    (rpc_client : Bool) (fetch : FetchResult Doc) (s : CursorState Doc)
    (h : s.exhausted = true) :
    (Cursor.try_next deserialize rpc_client fetch s).state.exhausted = true := by
  obtain ⟨cid, ex, buf, ns, bs⟩ := s
  simp only at h
  subst h
  cases buf with
  | nil => rfl
  | cons d rest => cases hd : deserialize d <;> simp [Cursor.try_next, hd]

/-- `advance` never clears the exhausted flag. -/
theorem advance_exhausted_mono {Doc : Type}
    (rpc_client : Bool) (fetch : FetchResult Doc) (s : CursorState Doc)
    (h : s.exhausted = true) :
    (Cursor.advance rpc_client fetch s).state.exhausted = true := by
  obtain ⟨cid, ex, buf, ns, bs⟩ := s
  simp only at h
  subst h
  cases buf <;> rfl

/-- The stream production step never clears the exhausted flag. -/
theorem poll_next_exhausted_mono {Doc α : Type} (deserialize : Doc → Except String α)
    (rpc_client : Bool) (fetch : FetchResult Doc) (s : CursorState Doc)
    (h : s.exhausted = true) :
    (Cursor.poll_next deserialize rpc_client fetch s).state.exhausted = true := by
  obtain ⟨cid, ex, buf, ns, bs⟩ := s
  simp only at h
  subst h
  cases buf with
  | nil => rfl
  | cons d rest => cases hd : deserialize d <;> simp [Cursor.poll_next, hd]

/-- `collect` never clears the exhausted flag, whatever its fuel. -/
theorem collect_exhausted_mono {Doc α : Type} (deserialize : Doc → Except String α)
    (rpc_client : Bool) (oracle : Nat → FetchResult Doc) :
    ∀ (fuel : Nat) (s : CursorState Doc) (calls : Nat) (acc : List α),
      s.exhausted = true →
      (Cursor.collect deserialize rpc_client oracle fuel s calls acc).state.exhausted = true := by
  intro fuel
  induction fuel with
  | zero => intro s calls acc h; exact h
  | succ n ih =>
    intro s calls acc h
    have hm := try_next_exhausted_mono deserialize rpc_client (oracle calls) s h
    simp only [Cursor.collect]
    cases hr : (Cursor.try_next deserialize rpc_client (oracle calls) s).result with
    | error e => simpa using hm
    | ok o =>
      cases o with
      | some v => simpa using ih _ _ _ hm
      | none => simpa using hm

/-- One operation step never clears the exhausted flag. -/
theorem step_exhausted_mono {Doc α : Type} (deserialize : Doc → Except String α)
    (rpc_client : Bool) (op : Op Doc) (s : CursorState Doc)
    (h : s.exhausted = true) :
    (Op.step deserialize rpc_client op s).1.exhausted = true := by
  cases op with
  | advanceOp fetch => exact advance_exhausted_mono rpc_client fetch s h
  | tryNextOp fetch => exact try_next_exhausted_mono deserialize rpc_client fetch s h
  | pollNextOp fetch => exact poll_next_exhausted_mono deserialize rpc_client fetch s h
  | collectOp fuel oracle => exact collect_exhausted_mono deserialize rpc_client oracle fuel s 0 [] h
  | closeOp => rfl
  | currentOp =>
    show (Cursor.current deserialize s).2.exhausted = true
    rw [current_state_eq]
    exact h

/-- With no cursor id, `try_next` keeps the id absent and issues no
fetch-more call. -/
theorem try_next_no_cid {Doc α : Type} (deserialize : Doc → Except String α)
    (rpc_client : Bool) (fetch : FetchResult Doc) (s : CursorState Doc)
    (h : s.cursor_id = none) :
    (Cursor.try_next deserialize rpc_client fetch s).state.cursor_id = none ∧
    (Cursor.try_next deserialize rpc_client fetch s).fetches = 0 := by
  obtain ⟨cid, ex, buf, ns, bs⟩ := s
  simp only at h
  subst h
  cases buf with
  | cons d rest => cases hd : deserialize d <;> simp [Cursor.try_next, hd]
  | nil => cases ex <;> simp [Cursor.try_next]

/-- With no cursor id, `advance` keeps the id absent and issues no
fetch-more call. -/
theorem advance_no_cid {Doc : Type}
    (rpc_client : Bool) (fetch : FetchResult Doc) (s : CursorState Doc)
    (h : s.cursor_id = none) :
    (Cursor.advance rpc_client fetch s).state.cursor_id = none ∧
    (Cursor.advance rpc_client fetch s).fetches = 0 := by
  obtain ⟨cid, ex, buf, ns, bs⟩ := s
  simp only at h
  subst h
  cases buf with
  | cons d rest => simp [Cursor.advance]
  | nil => cases ex <;> simp [Cursor.advance]

/-- With no cursor id, the stream step keeps the id absent and issues
no fetch-more call. -/
theorem poll_next_no_cid {Doc α : Type} (deserialize : Doc → Except String α)
    (rpc_client : Bool) (fetch : FetchResult Doc) (s : CursorState Doc)
    (h : s.cursor_id = none) :
    (Cursor.poll_next deserialize rpc_client fetch s).state.cursor_id = none ∧
    (Cursor.poll_next deserialize rpc_client fetch s).fetches = 0 := by
  obtain ⟨cid, ex, buf, ns, bs⟩ := s
  simp only at h
  subst h
  cases buf with
  | cons d rest => cases hd : deserialize d <;> simp [Cursor.poll_next, hd]
  | nil => cases ex <;> simp [Cursor.poll_next]

/-- With no cursor id, `collect` keeps the id absent and leaves the
fetch counter at its starting value, whatever its fuel. -/
theorem collect_no_cid {Doc α : Type} (deserialize : Doc → Except String α)
    (rpc_client : Bool) (oracle : Nat → FetchResult Doc) :
    ∀ (fuel : Nat) (s : CursorState Doc) (calls : Nat) (acc : List α),
      s.cursor_id = none →
      (Cursor.collect deserialize rpc_client oracle fuel s calls acc).state.cursor_id = none ∧
      (Cursor.collect deserialize rpc_client oracle fuel s calls acc).fetches = calls := by
  intro fuel
  induction fuel with
  | zero => intro s calls acc h; exact ⟨h, rfl⟩
  | succ n ih =>
    intro s calls acc h
    have hn := try_next_no_cid deserialize rpc_client (oracle calls) s h
    simp only [Cursor.collect]
    cases hr : (Cursor.try_next deserialize rpc_client (oracle calls) s).result with
    | error e => simpa [hn.2] using hn.1
    | ok o =>
      cases o with
      | some v =>
        have := ih (Cursor.try_next deserialize rpc_client (oracle calls) s).state
          (calls + (Cursor.try_next deserialize rpc_client (oracle calls) s).fetches)
          (acc ++ [v]) hn.1
        simpa [hn.2] using this
      | none => simpa [hn.2] using hn.1

/-- With no cursor id, one operation step keeps the id absent and
issues no fetch-more call. -/
theorem step_no_cid {Doc α : Type} (deserialize : Doc → Except String α)
    (rpc_client : Bool) (op : Op Doc) (s : CursorState Doc)
    (h : s.cursor_id = none) :
    (Op.step deserialize rpc_client op s).1.cursor_id = none ∧
    (Op.step deserialize rpc_client op s).2 = 0 := by
  cases op with
  | advanceOp fetch => exact advance_no_cid rpc_client fetch s h
  | tryNextOp fetch => exact try_next_no_cid deserialize rpc_client fetch s h
  | pollNextOp fetch => exact poll_next_no_cid deserialize rpc_client fetch s h
  | collectOp fuel oracle => exact collect_no_cid deserialize rpc_client oracle fuel s 0 [] h
  | closeOp => exact ⟨rfl, rfl⟩
  | currentOp =>
    refine ⟨?_, rfl⟩
    show (Cursor.current deserialize s).2.cursor_id = none
    rw [current_state_eq]
    exact h

/-- With no cursor id, no sequence of operations ever issues a
fetch-more call. -/
theorem run_no_cid {Doc α : Type} (deserialize : Doc → Except String α)
    (rpc_client : Bool) :
    ∀ (ops : List (Op Doc)) (s : CursorState Doc),
      s.cursor_id = none →
      (Op.run deserialize rpc_client ops s).1.cursor_id = none ∧
      (Op.run deserialize rpc_client ops s).2 = 0 := by
  intro ops
  induction ops with
  | nil => intro s h; exact ⟨h, rfl⟩
  | cons op rest ih =>
    intro s h
    have hs := step_no_cid deserialize rpc_client op s h
    have hr := ih (Op.step deserialize rpc_client op s).1 hs.1
    simp only [Op.run]
    exact ⟨hr.1, by simp [hs.2, hr.2]⟩

/-- Draining lemma: from a state whose whole buffer decodes and whose
exhausted flag is set, `collect` with fuel `length + 1` returns the
decoded buffer (after the accumulator), empties the buffer, changes
nothing else, and leaves the fetch counter where it started. -/
theorem collect_drain {Doc α : Type} (deserialize : Doc → Except String α)
    (rpc_client : Bool) (oracle : Nat → FetchResult Doc) (f : Doc → α) :
    ∀ (data : List Doc) (s : CursorState Doc) (calls : Nat) (acc : List α),
      s.buffer = data → s.exhausted = true →
      (∀ d, d ∈ data → deserialize d = Except.ok (f d)) →
      Cursor.collect deserialize rpc_client oracle (data.length + 1) s calls acc =
        ⟨some (Except.ok (acc ++ data.map f)), { s with buffer := [] }, calls⟩ := by
  intro data
  induction data with
  | nil =>
    intro s calls acc hbuf hex _
    obtain ⟨cid, ex, buf, ns, bs⟩ := s
    simp only at hbuf hex
    subst hbuf
    subst hex
    simp [Cursor.collect, Cursor.try_next]
  | cons d rest ih =>
    intro s calls acc hbuf hex hdec
    obtain ⟨cid, ex, buf, ns, bs⟩ := s
    simp only at hbuf hex
    subst hbuf
    subst hex
    have hd : deserialize d = Except.ok (f d) := hdec d (by simp)
    have hrec := ih ⟨cid, true, rest, ns, bs⟩ calls (acc ++ [f d]) rfl rfl
      (fun d2 h2 => hdec d2 (by simp [h2]))
    simp only [List.length_cons, Cursor.collect, Cursor.try_next, hd] at hrec ⊢
    simpa using hrec

/-! ## Claim theorems -/

/-- C6: `close()` is terminal and idempotent from every prior cursor
state: it returns `Ok(())`, clears the buffer, clears the continuation
token, and sets the exhausted flag unconditionally; afterwards
`is_exhausted()` is true and `cursor_id()` is `None`; closing the
already-closed cursor succeeds and changes nothing. -/
theorem close_terminal_idempotent {Doc : Type} (s : CursorState Doc) :
    (Cursor.close s).1 = Except.ok () ∧
    (Cursor.close s).2.exhausted = true ∧
    (Cursor.close s).2.buffer = [] ∧
    (Cursor.close s).2.cursor_id = none ∧
    Cursor.is_exhausted (Cursor.close s).2 = true ∧
    Cursor.cursor_id (Cursor.close s).2 = none ∧
    Cursor.close (Cursor.close s).2 = Cursor.close s := by
  simp [Cursor.close, Cursor.is_exhausted, Cursor.cursor_id]

/-- C8: `current()` leaves the cursor state unchanged; on a non-empty
buffer it returns the decoded head without removing it, and on an
empty buffer it fails with the cursor-exhausted error regardless of
the exhausted flag's value (the state is universally quantified, so in
particular both flag values are covered). -/
theorem current_frame_and_read {Doc α : Type} (deserialize : Doc → Except String α)
    (s : CursorState Doc) :
    (Cursor.current deserialize s).2 = s ∧
    (s.buffer = [] → (Cursor.current deserialize s).1 = Except.error MongoError.CursorExhausted) ∧
    (∀ d rest, s.buffer = d :: rest →
       (Cursor.current deserialize s).1 =
         match deserialize d with
         | Except.ok v => Except.ok v
         | Except.error e => Except.error (MongoError.Deserialization e)) := by
  refine ⟨current_state_eq deserialize s, ?_, ?_⟩
  · intro h
    simp [Cursor.current, h]
  · intro d rest h
    simp [Cursor.current, h]

/-- Witness for C8 at a concrete cursor: empty buffer with the
exhausted flag still false yields the cursor-exhausted error and an
unchanged state. -/
theorem current_frame_and_read_witness :
    (Cursor.current decNat (⟨some "c1", false, ([] : List Nat), "db.coll", 100⟩ : CursorState Nat)).1 =
      Except.error MongoError.CursorExhausted ∧
    (Cursor.current decNat (⟨some "c1", false, ([] : List Nat), "db.coll", 100⟩ : CursorState Nat)).2 =
      ⟨some "c1", false, [], "db.coll", 100⟩ :=
  ⟨(current_frame_and_read decNat ⟨some "c1", false, [], "db.coll", 100⟩).2.1 rfl,
   (current_frame_and_read decNat ⟨some "c1", false, [], "db.coll", 100⟩).1⟩

/-- C10: with no rpc collaborator attached, `advance()` on an empty
buffer returns `Ok(false)` — not an error — and leaves the cursor
exhausted, even with a continuation token present; no fetch-more call
is attempted. (The updated state equals the input with the flag set,
so when the flag was already true nothing changes.) -/
theorem advance_no_client_empty_buffer {Doc : Type} (fetch : FetchResult Doc)
    (s : CursorState Doc) (cid : String)
    (hbuf : s.buffer = []) (hcid : s.cursor_id = some cid) :
    Cursor.advance false fetch s =
      ⟨Except.ok false, { s with exhausted := true }, 0⟩ := by
  obtain ⟨c, ex, buf, ns, bs⟩ := s
  simp only at hbuf hcid
  subst hbuf
  subst hcid
  cases ex <;> simp [Cursor.advance]

/-- Witness for C10 at a concrete cursor with a token and the
exhausted flag false. -/
theorem advance_no_client_empty_buffer_witness :
    Cursor.advance false (orcFail 0) (⟨some "c1", false, ([] : List Nat), "db.coll", 100⟩ : CursorState Nat) =
      ⟨Except.ok false, ⟨some "c1", true, [], "db.coll", 100⟩, 0⟩ :=
  advance_no_client_empty_buffer (orcFail 0) ⟨some "c1", false, [], "db.coll", 100⟩ "c1" rfl rfl

/-- C5: when the buffer head fails to decode, `try_next()` returns a
decode error and consumes that record (it is removed from the buffer,
nothing else changes, no fetch is made), and the following
`try_next()` proceeds to the next buffered record — it pops it and
reports its own decode outcome — rather than re-attempting the failed
one. -/
theorem try_next_decode_failure_consumes {Doc α : Type} (deserialize : Doc → Except String α)
    (rpc_client : Bool) (fetch fetch2 : FetchResult Doc)
    (s : CursorState Doc) (d : Doc) (rest : List Doc) (e : String)
    (hbuf : s.buffer = d :: rest) (hdec : deserialize d = Except.error e) :
    Cursor.try_next deserialize rpc_client fetch s =
      ⟨Except.error (MongoError.Deserialization e), { s with buffer := rest }, 0⟩ ∧
    (∀ d2 rest2, rest = d2 :: rest2 →
       Cursor.try_next deserialize rpc_client fetch2 { s with buffer := rest } =
         (match deserialize d2 with
          | Except.ok v => ⟨Except.ok (some v), { s with buffer := rest2 }, 0⟩
          | Except.error e2 =>
              ⟨Except.error (MongoError.Deserialization e2), { s with buffer := rest2 }, 0⟩)) := by
  constructor
  · obtain ⟨c, ex, buf, ns, bs⟩ := s
    simp only at hbuf
    subst hbuf
    simp [Cursor.try_next, hdec]
  · intro d2 rest2 h2
    subst h2
    obtain ⟨c, ex, buf, ns, bs⟩ := s
    cases h3 : deserialize d2 <;> simp [Cursor.try_next, h3]

/-- Witness for C5: buffer `[1, 2]` under the even-only deserializer;
the first call consumes `1` with a decode error, the second decodes
`2`. -/
theorem try_next_decode_failure_consumes_witness :
    Cursor.try_next decEven true (orcFail 0) (⟨none, true, [1, 2], "db.c", 100⟩ : CursorState Nat) =
      ⟨Except.error (MongoError.Deserialization "odd"), ⟨none, true, [2], "db.c", 100⟩, 0⟩ ∧
    Cursor.try_next decEven true (orcFail 1) (⟨none, true, [2], "db.c", 100⟩ : CursorState Nat) =
      ⟨Except.ok (some 2), ⟨none, true, [], "db.c", 100⟩, 0⟩ := by
  have h := try_next_decode_failure_consumes decEven true (orcFail 0) (orcFail 1)
    (⟨none, true, [1, 2], "db.c", 100⟩ : CursorState Nat) 1 [2] "odd" rfl rfl
  exact ⟨h.1, h.2 2 [] rfl⟩

/-- C3: when a fetch-more call fails, the triggering operation —
whether `advance` or `try_next` — marks the cursor exhausted and
returns the transport error itself (not `Ok(false)` and not
`Ok(None)`), after exactly one fetch-more call (no retry at this
layer). -/
theorem fetch_failure_exhausts {Doc α : Type} (deserialize : Doc → Except String α)
    (s : CursorState Doc) (cid : String) (e : String)
    (hbuf : s.buffer = []) (hex : s.exhausted = false) (hcid : s.cursor_id = some cid) :
    Cursor.advance true (Except.error e) s =
      ⟨Except.error (MongoError.Rpc e), { s with exhausted := true }, 1⟩ ∧
    Cursor.try_next deserialize true (Except.error e) s =
      ⟨Except.error (MongoError.Rpc e), { s with exhausted := true }, 1⟩ := by
  obtain ⟨c, ex, buf, ns, bs⟩ := s
  simp only at hbuf hex hcid
  subst hbuf
  subst hex
  subst hcid
  exact ⟨rfl, rfl⟩

/-- Witness for C3 at a concrete awaiting-fetch cursor whose fetch
fails with message `"boom"`. -/
theorem fetch_failure_exhausts_witness :
    Cursor.advance true (Except.error "boom") (⟨some "c1", false, ([] : List Nat), "db.coll", 100⟩ : CursorState Nat) =
      ⟨Except.error (MongoError.Rpc "boom"), ⟨some "c1", true, [], "db.coll", 100⟩, 1⟩ ∧
    Cursor.try_next decNat true (Except.error "boom") (⟨some "c1", false, ([] : List Nat), "db.coll", 100⟩ : CursorState Nat) =
      ⟨Except.error (MongoError.Rpc "boom"), ⟨some "c1", true, [], "db.coll", 100⟩, 1⟩ :=
  fetch_failure_exhausts decNat ⟨some "c1", false, [], "db.coll", 100⟩ "c1" "boom" rfl rfl rfl

/-- C1 counterexample: a cursor in the empty-buffer, not-exhausted
state whose `try_next`-triggered fetch replies with zero documents and
a present token IS marked exhausted by the fall-through of
`try_next` (cursor.rs lines 271-273), and the subsequent `try_next()`
issues zero — not one — fetch-more calls. -/
theorem try_next_empty_batch_counterexample :
    (Cursor.try_next decNat true (Except.ok ⟨some [], some "c2"⟩)
        (⟨some "c1", false, ([] : List Nat), "db.coll", 100⟩ : CursorState Nat)).state.exhausted = true ∧
    (Cursor.try_next decNat true (Except.error "later")
        (Cursor.try_next decNat true (Except.ok ⟨some [], some "c2"⟩)
          (⟨some "c1", false, ([] : List Nat), "db.coll", 100⟩ : CursorState Nat)).state).fetches = 0 := by
  exact ⟨rfl, rfl⟩

/-- C1 (amended): for every cursor in the empty-buffer, not-exhausted
state with a token and an rpc client, a fetch-more reply carrying zero
documents but a present token behaves asymmetrically by trigger: when
`advance` issued the fetch, the cursor is not marked exhausted (the
new token is installed, `Ok(false)` is returned) and a subsequent
`try_next()` issues exactly one more fetch-more call; when `try_next`
itself issued the fetch, that same call marks the cursor exhausted and
returns `Ok(None)`, and a subsequent `try_next()` issues no
fetch-more call. -/
theorem empty_batch_with_token_by_trigger {Doc α : Type} (deserialize : Doc → Except String α)
    (s : CursorState Doc) (cid ncid : String) (fetch2 : FetchResult Doc)
    (hbuf : s.buffer = []) (hex : s.exhausted = false) (hcid : s.cursor_id = some cid) :
    Cursor.advance true (Except.ok ⟨some [], some ncid⟩) s =
      ⟨Except.ok false, { s with cursor_id := some ncid }, 1⟩ ∧
    (Cursor.try_next deserialize true fetch2 { s with cursor_id := some ncid }).fetches = 1 ∧
    Cursor.try_next deserialize true (Except.ok ⟨some [], some ncid⟩) s =
      ⟨Except.ok none, { s with cursor_id := some ncid, exhausted := true }, 1⟩ ∧
    (Cursor.try_next deserialize true fetch2 { s with cursor_id := some ncid, exhausted := true }).fetches = 0 := by
  obtain ⟨c, ex, buf, ns, bs⟩ := s
  simp only at hbuf hex hcid
  subst hbuf
  subst hex
  subst hcid
  refine ⟨rfl, ?_, rfl, rfl⟩
  cases fetch2 with
  | error e => rfl
  | ok reply =>
    obtain ⟨docs, c2⟩ := reply
    cases docs with
    | none => cases c2 <;> rfl
    | some ds =>
      cases c2 with
      | none =>
        cases ds with
        | nil => rfl
        | cons d2 r2 => cases h : deserialize d2 <;> simp [Cursor.try_next, h]
      | some c3 =>
        cases ds with
        | nil => rfl
        | cons d2 r2 => cases h : deserialize d2 <;> simp [Cursor.try_next, h]

/-- Witness for the amended C1 at a concrete cursor and a concrete
follow-up fetch outcome. -/
theorem empty_batch_with_token_by_trigger_witness :
    Cursor.advance true (Except.ok ⟨some [], some "c2"⟩)
        (⟨some "c1", false, ([] : List Nat), "db.coll", 100⟩ : CursorState Nat) =
      ⟨Except.ok false, ⟨some "c2", false, [], "db.coll", 100⟩, 1⟩ ∧
    (Cursor.try_next decNat true (Except.error "later")
        (⟨some "c2", false, ([] : List Nat), "db.coll", 100⟩ : CursorState Nat)).fetches = 1 ∧
    Cursor.try_next decNat true (Except.ok ⟨some [], some "c2"⟩)
        (⟨some "c1", false, ([] : List Nat), "db.coll", 100⟩ : CursorState Nat) =
      ⟨Except.ok none, ⟨some "c2", true, [], "db.coll", 100⟩, 1⟩ ∧
    (Cursor.try_next decNat true (Except.error "later")
        (⟨some "c2", true, ([] : List Nat), "db.coll", 100⟩ : CursorState Nat)).fetches = 0 :=
  empty_batch_with_token_by_trigger decNat ⟨some "c1", false, [], "db.coll", 100⟩
    "c1" "c2" (Except.error "later") rfl rfl rfl

/-- C2: each stream production step computes exactly the result and
state transition of one `try_next` call, through the correspondence
`Ok(Some r) ↔ Some(Ok r)`, `Err e ↔ Some(Err e)`, `Ok(None) ↔ None`
(`resultToPoll`), for every deserializer, every rpc-client presence,
every fetch outcome and every cursor state — including an identical
number of fetch-more calls. -/
theorem poll_next_refines_try_next {Doc α : Type} (deserialize : Doc → Except String α)
    (rpc_client : Bool) (fetch : FetchResult Doc) (s : CursorState Doc) :
    Cursor.poll_next deserialize rpc_client fetch s =
      ⟨resultToPoll (Cursor.try_next deserialize rpc_client fetch s).result,
       (Cursor.try_next deserialize rpc_client fetch s).state,
       (Cursor.try_next deserialize rpc_client fetch s).fetches⟩ := by
  obtain ⟨cid, ex, buf, ns, bs⟩ := s
  cases buf with
  | cons d rest =>
    cases h : deserialize d <;> simp [Cursor.poll_next, Cursor.try_next, h, resultToPoll]
  | nil =>
    cases ex with
    | true => rfl
    | false =>
      cases cid with
      | none => rfl
      | some c =>
        cases rpc_client with
        | false => rfl
        | true =>
          cases fetch with
          | error e => rfl
          | ok reply =>
            obtain ⟨docs, ncid⟩ := reply
            cases docs with
            | none => cases ncid <;> rfl
            | some ds =>
              cases ncid with
              | none =>
                cases ds with
                | nil => rfl
                | cons d2 r2 =>
                  cases h : deserialize d2 <;>
                    simp [Cursor.poll_next, Cursor.try_next, h, resultToPoll]
              | some c2 =>
                cases ds with
                | nil => rfl
                | cons d2 r2 =>
                  cases h : deserialize d2 <;>
                    simp [Cursor.poll_next, Cursor.try_next, h, resultToPoll]

/-- C7: the exhausted flag is monotone — once true, it stays true
across every sequence of operations (`advance`, `try_next`, `collect`,
stream production steps, `close`, `current`), for every deserializer,
rpc-client presence and fetch-outcome schedule. -/
theorem exhausted_monotone {Doc α : Type} (deserialize : Doc → Except String α)
    (rpc_client : Bool) :
    ∀ (ops : List (Op Doc)) (s : CursorState Doc),
      s.exhausted = true →
      (Op.run deserialize rpc_client ops s).1.exhausted = true := by
  intro ops
  induction ops with
  | nil => intro s h; exact h
  | cons op rest ih =>
    intro s h
    exact ih (Op.step deserialize rpc_client op s).1
      (step_exhausted_mono deserialize rpc_client op s h)

/-- Witness for C7: a concrete exhausted cursor stays exhausted across
a concrete operation sequence. -/
theorem exhausted_monotone_witness :
    (Op.run decNat true
        [Op.tryNextOp (orcFail 0), Op.advanceOp (orcFail 1), Op.currentOp, Op.closeOp]
        (⟨none, true, [3], "db.c", 100⟩ : CursorState Nat)).1.exhausted = true :=
  exhausted_monotone decNat true
    [Op.tryNextOp (orcFail 0), Op.advanceOp (orcFail 1), Op.currentOp, Op.closeOp]
    ⟨none, true, [3], "db.c", 100⟩ rfl

/-- C9: immediately after construction with `new(namespace, data,
token)` (i.e. `CursorState::with_data`), the internal exhausted flag
is true iff `token` is `None` — even when `data` is non-empty — while
the public `is_exhausted()` is true iff `token` is `None` and `data`
is empty; and a cursor built with no token never issues a fetch-more
call under any sequence of operations. -/
theorem with_data_exhaustion {Doc α : Type} (deserialize : Doc → Except String α)
    (rpc_client : Bool) (nspace : String) (data : List Doc) (token : Option String) :
    (CursorState.with_data nspace data token).exhausted = token.isNone ∧
    Cursor.is_exhausted (CursorState.with_data nspace data token) =
      (token.isNone && data.isEmpty) ∧
    (token = none → ∀ ops : List (Op Doc),
       (Op.run deserialize rpc_client ops (CursorState.with_data nspace data token)).2 = 0) := by
  refine ⟨rfl, rfl, ?_⟩
  intro h ops
  subst h
  exact (run_no_cid deserialize rpc_client ops (CursorState.with_data nspace data none) rfl).2

/-- Witness for C9: one record, no token — flag set, public query
false, and a two-call consumption sequence makes zero fetch-more
calls. -/
theorem with_data_exhaustion_witness :
    (CursorState.with_data "db.c" ([7] : List Nat) none).exhausted = true ∧
    Cursor.is_exhausted (CursorState.with_data "db.c" ([7] : List Nat) none) = false ∧
    (Op.run decNat true [Op.tryNextOp (orcFail 0), Op.tryNextOp (orcFail 1)]
        (CursorState.with_data "db.c" ([7] : List Nat) none)).2 = 0 := by
  have h := with_data_exhaustion decNat true "db.c" ([7] : List Nat) none
  exact ⟨h.1, h.2.1, h.2.2 rfl [Op.tryNextOp (orcFail 0), Op.tryNextOp (orcFail 1)]⟩

/-- C4: a cursor constructed with `N` pre-fetched decodable records
and no continuation token: `collect()` (run with enough fuel for its
`N + 1` loop iterations) returns exactly those records, decoded, in
their original order, issues no fetch-more call, and the next
`try_next()` on the drained state reports exhaustion as `Ok(None)` —
not an error — without fetching. -/
theorem collect_prefetched {Doc α : Type} (deserialize : Doc → Except String α)
    (rpc_client : Bool) (oracle : Nat → FetchResult Doc) (fetch : FetchResult Doc)
    (f : Doc → α) (nspace : String) (data : List Doc)
    (hdec : ∀ d, d ∈ data → deserialize d = Except.ok (f d)) :
    (Cursor.collect deserialize rpc_client oracle (data.length + 1)
        (CursorState.with_data nspace data none) 0 []).result =
      some (Except.ok (data.map f)) ∧
    (Cursor.collect deserialize rpc_client oracle (data.length + 1)
        (CursorState.with_data nspace data none) 0 []).fetches = 0 ∧
    Cursor.try_next deserialize rpc_client fetch
        (Cursor.collect deserialize rpc_client oracle (data.length + 1)
          (CursorState.with_data nspace data none) 0 []).state =
      ⟨Except.ok none,
       (Cursor.collect deserialize rpc_client oracle (data.length + 1)
          (CursorState.with_data nspace data none) 0 []).state, 0⟩ := by
  have h := collect_drain deserialize rpc_client oracle f data
    (CursorState.with_data nspace data none) 0 [] rfl rfl hdec
  rw [h]
  refine ⟨by simp, rfl, ?_⟩
  simp [Cursor.try_next, CursorState.with_data]

/-- Witness for C4: records `[1, 2]`, no token. -/
theorem collect_prefetched_witness :
    (Cursor.collect decNat true orcFail 3
        (CursorState.with_data "db.c" [1, 2] none) 0 []).result =
      some (Except.ok [1, 2]) ∧
    (Cursor.collect decNat true orcFail 3
        (CursorState.with_data "db.c" [1, 2] none) 0 []).fetches = 0 ∧
    Cursor.try_next decNat true (orcFail 2)
        (Cursor.collect decNat true orcFail 3
          (CursorState.with_data "db.c" [1, 2] none) 0 []).state =
      ⟨Except.ok none,
       (Cursor.collect decNat true orcFail 3
          (CursorState.with_data "db.c" [1, 2] none) 0 []).state, 0⟩ :=
  collect_prefetched decNat true orcFail (orcFail 2) (fun n => n) "db.c" [1, 2]
    (fun _ _ => rfl)
